import Mathlib

/-!
Formal model of the Tenants repository's per-user field-level encryption layer
(`src/lib/encryption.ts`) and its zero-trust authentication middleware
(`src/lib/auth-middleware.ts`), with theorems settling the specification's
claims about them.

Modelling conventions:
* Node `Buffer`s are `List Nat` with every entry `< 256`.
* `Buffer.from(s, 'utf8')` is the identity on strings where only injectivity
  matters (HKDF salt/info inputs), so those inputs are kept as `String`.
* base64 (`Buffer.toString('base64')` / `Buffer.from(s, 'base64')`) is
  implemented concretely below; like Node, decoding ignores characters
  outside the base64 alphabet (including padding `=`).
* The external Node primitives the code calls — `crypto.hkdfSync`,
  AES-256-GCM via `createCipheriv`/`createDecipheriv`, and
  `JSON.stringify`/`JSON.parse` composed with UTF-8 — are opaque services.
  They are modelled as the fields of a `CryptoPrim` structure over which the
  theorems quantify, with the behaviour a claim needs stated as a pointwise
  hypothesis at exactly the inputs involved.
* The randomness draw `crypto.randomBytes(IV_LENGTH)` is modelled by passing
  the drawn IV bytes to `encrypt` as an explicit argument.
* Thrown `Error(msg)` values are modelled as `Except String` with the exact
  source message strings; `AuthenticationError` keeps its message and
  statusCode fields.
-/

deriving instance DecidableEq for Except

namespace Tenants

/-! ## base64 (RFC 4648), as used by Node `Buffer` -/

def b64Alphabet : List Char :=
  "ABCDEFGHIJKLMNOPQRSTUVWXYZabcdefghijklmnopqrstuvwxyz0123456789+/".data

/-- The base64 character for a 6-bit value. -/
def encChar (v : Nat) : Char := b64Alphabet.getD v 'A'

/-- The 6-bit value of a base64 character; `none` for characters outside the
alphabet (Node's decoder skips those, `=` included). -/
def decChar (c : Char) : Option Nat :=
  let i := b64Alphabet.indexOf c
  if i < 64 then some i else none

/-- Encode bytes as base64 characters, three bytes to four characters, with
`=` padding exactly as Node emits it. -/
def b64e : List Nat → List Char
  | [] => []
  | [b1] => [encChar (b1 / 4), encChar (b1 % 4 * 16), '=', '=']
  | [b1, b2] =>
    [encChar (b1 / 4), encChar (b1 % 4 * 16 + b2 / 16), encChar (b2 % 16 * 4), '=']
  | b1 :: b2 :: b3 :: rest =>
    encChar (b1 / 4) :: encChar (b1 % 4 * 16 + b2 / 16) ::
      encChar (b2 % 16 * 4 + b3 / 64) :: encChar (b3 % 64) :: b64e rest

/-- Reassemble bytes from a stream of 6-bit values, four values to three
bytes; a trailing group of two or three values yields one or two bytes and a
lone trailing value is dropped, matching Node's lenient decoder. -/
def b64dVals : List Nat → List Nat
  | [] => []
  | [_] => []
  | [v1, v2] => [v1 * 4 + v2 / 16]
  | [v1, v2, v3] => [v1 * 4 + v2 / 16, v2 % 16 * 16 + v3 / 4]
  | v1 :: v2 :: v3 :: v4 :: rest =>
    (v1 * 4 + v2 / 16) :: (v2 % 16 * 16 + v3 / 4) :: (v3 % 4 * 64 + v4) :: b64dVals rest

/-- `buffer.toString('base64')`. -/
def b64encode (bs : List Nat) : String := String.mk (b64e bs)

/-- `Buffer.from(s, 'base64')`. -/
def b64decode (s : String) : List Nat := b64dVals (s.data.filterMap decChar)

/-! ## External Node primitives (`crypto`, `JSON`) as an opaque-service model

`src/lib/encryption.ts` calls four external primitives. They are bundled in a
structure over which the theorems quantify; everything a claim needs of them
is a hypothesis at the concrete inputs involved:
* `hkdf ikm salt info len` — `crypto.hkdfSync('sha256', ikm, salt, info, len)`
  (the salt and info `Buffer.from(·,'utf8')` coercions are left as `String`);
* `gcmEnc key iv pt` — AES-256-GCM: `createCipheriv` + `update`/`final` +
  `getAuthTag`, returning (ciphertext, authentication tag);
* `gcmDec key iv ct tag` — `createDecipheriv` + `setAuthTag` +
  `update`/`final`, `none` when tag verification (or any cipher step) fails;
* `ser` / `deser` — `JSON.stringify` composed with UTF-8 encoding, and UTF-8
  decoding composed with `JSON.parse` (which throws, i.e. `none`, on
  malformed input). The plaintext type is the generic parameter `T` of the
  TypeScript `encrypt<T>`/`decrypt<T>`. -/

structure CryptoPrim (α : Type) where
  hkdf : List Nat → String → String → Nat → List Nat
  gcmEnc : List Nat → List Nat → List Nat → List Nat × List Nat
  gcmDec : List Nat → List Nat → List Nat → List Nat → Option (List Nat)
  ser : α → List Nat
  deser : List Nat → Option α

/-! ## `src/lib/encryption.ts` -/

/-- `KEY_LENGTH = 32` (256-bit key). -/
def KEY_LENGTH : Nat := 32

/-- The HKDF `info` domain-separation constant of `deriveUserKey`. -/
def keyDerivationInfo : String := "tenants-app-user-encryption-key"

/-- Message of the error `getMasterSecret` throws. -/
def masterSecretMissingMsg : String :=
  "ENCRYPTION_MASTER_SECRET environment variable is not set"

/-- Message of the error `encrypt` throws from its catch-all. -/
def encryptFailureMsg : String := "Encryption failed"

/-- Message of the single error `decrypt` throws from its catch-all. -/
def decryptFailureMsg : String := "Decryption failed or data integrity compromised"

/-- `getMasterSecret`: reads `process.env.ENCRYPTION_MASTER_SECRET` (modelled
as the `env` argument, `none` when unset), throws when the value is falsy
(absent or the empty string), and otherwise base64-decodes it — Node's
lenient decoding, which never throws. -/
def getMasterSecret (env : Option String) : Except String (List Nat) :=
  match env with
  | none => .error masterSecretMissingMsg
  | some secret =>
    if secret = "" then .error masterSecretMissingMsg
    else .ok (b64decode secret)

/-- `deriveUserKey`: HKDF-SHA256 with the master secret as ikm, the Firebase
UID as salt and the fixed info string, output `KEY_LENGTH` bytes. -/
def deriveUserKey {α : Type} (P : CryptoPrim α) (env : Option String)
    (firebaseUid : String) : Except String (List Nat) :=
  match getMasterSecret env with
  | .error e => .error e
  | .ok masterSecret => .ok (P.hkdf masterSecret firebaseUid keyDerivationInfo KEY_LENGTH)

/-- `EncryptedData`: the three base64-encoded components. -/
structure EncryptedData where
  ciphertext : String
  iv : String
  authTag : String
deriving DecidableEq

/-- `encrypt<T>(data, firebaseUid)`: derive the user key, draw a random IV
(modelled as the explicit `ivBytes` argument), AES-256-GCM-encrypt the JSON
serialization, and base64-pack the three components. Its catch-all turns any
failure (in this model: key derivation) into `Error('Encryption failed')`. -/
def encrypt {α : Type} (P : CryptoPrim α) (env : Option String) (data : α)
    (firebaseUid : String) (ivBytes : List Nat) : Except String EncryptedData :=
  match deriveUserKey P env firebaseUid with
  | .error _ => .error encryptFailureMsg
  | .ok key =>
    .ok { ciphertext := b64encode (P.gcmEnc key ivBytes (P.ser data)).1
          iv := b64encode ivBytes
          authTag := b64encode (P.gcmEnc key ivBytes (P.ser data)).2 }

/-- `decrypt<T>(encryptedData, firebaseUid)`: derive the user key,
base64-decode the components, AES-256-GCM-decrypt (tag is verified before any
plaintext is released), then JSON-parse. Its single catch-all maps every
failure — key derivation, tag verification, and JSON parsing alike — to the
one error `Error('Decryption failed or data integrity compromised')`. -/
def decrypt {α : Type} (P : CryptoPrim α) (env : Option String)
    (encryptedData : EncryptedData) (firebaseUid : String) : Except String α :=
  match deriveUserKey P env firebaseUid with
  | .error _ => .error decryptFailureMsg
  | .ok key =>
    match P.gcmDec key (b64decode encryptedData.iv) (b64decode encryptedData.ciphertext)
        (b64decode encryptedData.authTag) with
    | none => .error decryptFailureMsg
    | some plaintextBytes =>
      match P.deser plaintextBytes with
      | none => .error decryptFailureMsg
      | some value => .ok value

/-! ## `src/lib/auth-middleware.ts` -/

/-- JavaScript `String.prototype.split(' ')` on the character list: split at
every single space, keeping empty segments. Always returns at least one
segment. -/
def splitSp : List Char → List (List Char)
  | [] => [[]]
  | c :: rest =>
    match splitSp rest, c with
    | [], _ => [[]]
    | s :: ss, c => if c = ' ' then [] :: s :: ss else (c :: s) :: ss

/-- `authHeader.split(' ')`. -/
def jsSplitSpace (s : String) : List String := (splitSp s.data).map String.mk

/-- The decoded Firebase ID token (`DecodedIdToken`): the claims the
middleware reads. `email_verified` is optional in the provider's claims; the
source applies `|| false`. -/
structure DecodedIdToken where
  uid : String
  email : Option String
  email_verified : Option Bool
deriving DecidableEq

/-- The ways the external `auth.verifyIdToken(token, true)` call can reject:
the expected verification failures (bad signature / malformed, expired,
revoked), and `unexpectedFailure` for exceptions outside the verification
class (SDK initialization failure, network error from certificate fetch,
provider bug). The source's catch cannot tell these apart: it only tests
`instanceof AuthenticationError`, which none of them are. -/
inductive VerifierError where
  | invalidToken
  | expiredToken
  | revokedToken
  | unexpectedFailure
deriving DecidableEq

/-- A token-verifier oracle: `(token) => auth.verifyIdToken(token, true)`. -/
def TokenVerifier : Type := String → Except VerifierError DecodedIdToken

/-- `AuthenticationError` (message, statusCode). -/
structure AuthenticationError where
  message : String
  statusCode : Nat
deriving DecidableEq

/-- `AuthenticatedUser`. -/
structure AuthenticatedUser where
  uid : String
  email : Option String
  emailVerified : Bool
  token : DecodedIdToken
deriving DecidableEq

/-- The request, reduced to the only part the middleware reads:
`request.headers.get('authorization')`. -/
structure Req where
  authorization : Option String
deriving DecidableEq

/-- `verifyAuth(request)`: missing header → 401; `const [bearer, token] =
authHeader.split(' ')` then `bearer !== 'Bearer' || !token` → 401 (`!token`
also catches the empty string); oracle rejection of any kind → the catch
rethrows it as `AuthenticationError('Invalid or expired token', 401)`;
success → the `AuthenticatedUser` with `emailVerified = email_verified ||
false`. -/
def verifyAuth (vit : TokenVerifier) (request : Req) :
    Except AuthenticationError AuthenticatedUser :=
  match request.authorization with
  | none => .error ⟨"Missing authorization header", 401⟩
  | some authHeader =>
    match jsSplitSpace authHeader with
    | bearer :: token :: _ =>
      if bearer = "Bearer" ∧ token ≠ "" then
        match vit token with
        | .ok decodedToken =>
          .ok { uid := decodedToken.uid
                email := decodedToken.email
                emailVerified := decodedToken.email_verified.getD false
                token := decodedToken }
        | .error _ => .error ⟨"Invalid or expired token", 401⟩
      else .error ⟨"Invalid authorization header format", 401⟩
    | _ => .error ⟨"Invalid authorization header format", 401⟩

/-- An HTTP response, reduced to status and body. -/
structure Response where
  status : Nat
  body : String
deriving DecidableEq

/-- What a wrapped handler can do: return a response, throw an
`AuthenticationError`, or throw anything else. -/
inductive HandlerExn where
  | authError (e : AuthenticationError)
  | otherExn
deriving DecidableEq

/-- A route handler as passed to `withAuth`. -/
def Handler : Type := Req → AuthenticatedUser → Except HandlerExn Response

/-- The error responses `withAuth` constructs:
`new Response(JSON.stringify({ error: message }), { status })`. (None of the
source's messages need JSON string escaping.) -/
def mkJsonResponse (message : String) (status : Nat) : Response :=
  ⟨status, "\x7b\"error\":\"" ++ message ++ "\"\x7d"⟩

/-- `withAuth(handler)`: run `verifyAuth`; on success run the handler. The
catch maps a thrown `AuthenticationError` (from either) to its own status
and message, and anything else to a generic 500. -/
def withAuth (vit : TokenVerifier) (handler : Handler) (request : Req) : Response :=
  match verifyAuth vit request with
  | .error e => mkJsonResponse e.message e.statusCode
  | .ok user =>
    match handler request user with
    | .ok resp => resp
    | .error (.authError e) => mkJsonResponse e.message e.statusCode
    | .error .otherExn => mkJsonResponse "Authentication failed" 500

/-! ## Tampering, and concrete evaluation instances -/

/-- Flip the single bit `n` (little-endian within bytes) of a byte list:
replace byte `n / 8` by its xor with `2 ^ (n % 8)`. Out-of-range positions
leave the list unchanged (`List.set` out of range). -/
def flipBit (bs : List Nat) (n : Nat) : List Nat :=
  bs.set (n / 8) (Nat.xor (bs.getD (n / 8) 0) (2 ^ (n % 8)))

/-- A concrete, intentionally trivial `CryptoPrim` instance, used only to
evaluate witnesses and counterexamples at closed inputs. It does not model
the real primitives: its cipher is the identity with the concatenation
`key ++ iv ++ ciphertext` as tag (so tag verification fails whenever key, iv,
ciphertext or tag changed), its KDF appends the salt's character codes to the
ikm, and it serializes a `Nat` below 256 as the singleton byte list. -/
def idPrim : CryptoPrim Nat where
  hkdf := fun ms salt _ _ => ms ++ salt.data.map Char.toNat
  gcmEnc := fun key iv pt => (pt, key ++ iv ++ pt)
  gcmDec := fun key iv ct tag => if tag = key ++ iv ++ ct then some ct else none
  ser := fun n => [n % 256]
  deser := fun l => match l with | [n] => some n | _ => none

/-- A token verifier that accepts every token, mapping token `t` to subject
`"uid-" ++ t`. -/
def vitAccept : TokenVerifier := fun t => .ok ⟨"uid-" ++ t, none, none⟩

/-- A token verifier that rejects every token as expired. -/
def vitExpired : TokenVerifier := fun _ => .error .expiredToken

/-- A token verifier whose call fails with an exception outside the expected
verification-failure class (e.g. the Admin SDK could not be initialized or a
certificate fetch failed). -/
def vitUnexpected : TokenVerifier := fun _ => .error .unexpectedFailure

/-- A handler that returns 200 "ok". -/
def okHandler : Handler := fun _ _ => .ok ⟨200, "ok"⟩

/-- A handler that throws a non-`AuthenticationError` exception. -/
def throwingHandler : Handler := fun _ _ => .error .otherExn

end Tenants

namespace Tenants

/-! ## Supporting lemmas -/

theorem b64decode_encode (bs : List Nat) :
    b64decode (b64encode bs) = b64dVals ((b64e bs).filterMap decChar) := rfl

theorem decChar_encChar_fin : ∀ v : Fin 64, decChar (encChar v.val) = some v.val := by
  decide

theorem decChar_encChar {v : Nat} (h : v < 64) : decChar (encChar v) = some v :=
  decChar_encChar_fin ⟨v, h⟩

theorem decChar_pad : decChar '=' = none := by decide

/-- base64 decoding inverts encoding on byte lists. -/
theorem b64_roundtrip : ∀ bs : List Nat, (∀ b ∈ bs, b < 256) →
    b64decode (b64encode bs) = bs
  | [], _ => rfl
  | [b1], h => by
    have hb1 : b1 < 256 := h b1 (by simp)
    have e1 : decChar (encChar (b1 / 4)) = some (b1 / 4) := decChar_encChar (by omega)
    have e2 : decChar (encChar (b1 % 4 * 16)) = some (b1 % 4 * 16) :=
      decChar_encChar (by omega)
    rw [b64decode_encode]
    simp only [b64e, List.filterMap_cons, e1, e2, decChar_pad, List.filterMap_nil]
    simp only [b64dVals, List.cons.injEq, and_true]
    omega
  | [b1, b2], h => by
    have hb1 : b1 < 256 := h b1 (by simp)
    have hb2 : b2 < 256 := h b2 (by simp)
    have e1 : decChar (encChar (b1 / 4)) = some (b1 / 4) := decChar_encChar (by omega)
    have e2 : decChar (encChar (b1 % 4 * 16 + b2 / 16)) = some (b1 % 4 * 16 + b2 / 16) :=
      decChar_encChar (by omega)
    have e3 : decChar (encChar (b2 % 16 * 4)) = some (b2 % 16 * 4) :=
      decChar_encChar (by omega)
    rw [b64decode_encode]
    simp only [b64e, List.filterMap_cons, e1, e2, e3, decChar_pad, List.filterMap_nil]
    simp only [b64dVals, List.cons.injEq, and_true]
    omega
  | b1 :: b2 :: b3 :: rest, h => by
    have hb1 : b1 < 256 := h b1 (by simp)
    have hb2 : b2 < 256 := h b2 (by simp)
    have hb3 : b3 < 256 := h b3 (by simp)
    have ih := b64_roundtrip rest (fun b hb => h b (by simp [hb]))
    rw [b64decode_encode] at ih ⊢
    have e1 : decChar (encChar (b1 / 4)) = some (b1 / 4) := decChar_encChar (by omega)
    have e2 : decChar (encChar (b1 % 4 * 16 + b2 / 16)) = some (b1 % 4 * 16 + b2 / 16) :=
      decChar_encChar (by omega)
    have e3 : decChar (encChar (b2 % 16 * 4 + b3 / 64)) = some (b2 % 16 * 4 + b3 / 64) :=
      decChar_encChar (by omega)
    have e4 : decChar (encChar (b3 % 64)) = some (b3 % 64) :=
      decChar_encChar (by omega)
    simp only [b64e, List.filterMap_cons, e1, e2, e3, e4]
    simp only [b64dVals, ih, List.cons.injEq, and_true]
    omega

/-- Flipping a bit keeps bytes below 256. -/
theorem flipBit_valid {bs : List Nat} (n : Nat) (h : ∀ b ∈ bs, b < 256) :
    ∀ b ∈ flipBit bs n, b < 256 := by
  intro b hb
  rcases List.mem_or_eq_of_mem_set hb with hmem | heq
  · exact h b hmem
  · subst heq
    have h1 : bs.getD (n / 8) 0 < 256 := by
      rcases Nat.lt_or_ge (n / 8) bs.length with hlt | hge
      · rw [List.getD_eq_getElem bs 0 hlt]
        exact h _ (List.getElem_mem hlt)
      · rw [List.getD_eq_default bs 0 hge]
        norm_num
    have h2 : 2 ^ (n % 8) < 256 := by
      have : n % 8 < 8 := Nat.mod_lt _ (by norm_num)
      calc 2 ^ (n % 8) < 2 ^ 8 := Nat.pow_lt_pow_right (by norm_num) this
        _ = 256 := by norm_num
    exact Nat.xor_lt_two_pow (n := 8) h1 h2

end Tenants

namespace Tenants

/-! ## Claims -/

/-- C1: with the master secret set, for every serializable value `data` and
identity `i`, `decrypt (encrypt data i) i` returns `data`. The behaviour of
the external AEAD and JSON primitives at the inputs involved is given as
hypotheses: encrypting under the derived key yields `(ct, tag)`, decrypting
that pair under the same key and IV returns the serialized bytes, and
deserialization inverts serialization at `data`; the primitive outputs are
byte lists. -/
theorem C1_encrypt_decrypt_roundtrip {α : Type} (P : CryptoPrim α) (env : Option String)
    (ms : List Nat) (data : α) (i : String) (ivB ct tag : List Nat)
    (hms : getMasterSecret env = .ok ms)
    (henc : P.gcmEnc (P.hkdf ms i keyDerivationInfo KEY_LENGTH) ivB (P.ser data) = (ct, tag))
    (hdec : P.gcmDec (P.hkdf ms i keyDerivationInfo KEY_LENGTH) ivB ct tag = some (P.ser data))
    (hdeser : P.deser (P.ser data) = some data)
    (hct : ∀ b ∈ ct, b < 256) (hiv : ∀ b ∈ ivB, b < 256) (htag : ∀ b ∈ tag, b < 256) :
    (encrypt P env data i ivB).bind (fun r => decrypt P env r i) = .ok data := by
  simp only [encrypt, deriveUserKey, hms, henc, Except.bind, decrypt,
    b64_roundtrip ct hct, b64_roundtrip ivB hiv, b64_roundtrip tag htag, hdec, hdeser]

/-- C1 witness: a concrete round trip through the model at the trivial
instance. -/
theorem C1_witness :
    (encrypt idPrim (some "QUJD") 7 "a" [1, 2]).bind
      (fun r => decrypt idPrim (some "QUJD") r "a") = .ok 7 :=
  C1_encrypt_decrypt_roundtrip idPrim (some "QUJD") [65, 66, 67] 7 "a" [1, 2] [7]
    [65, 66, 67, 97, 1, 2, 7] (by decide) (by decide) (by decide) (by decide)
    (by decide) (by decide) (by decide)

end Tenants

namespace Tenants

/-- C2: decrypting `encrypt data i1` under a different identity `i2` always
fails with the integrity error and never returns a value. The AEAD's
authenticity at the point involved — the tag produced under `i1`'s key does
not verify under `i2`'s key — is the `hforge` hypothesis. -/
theorem C2_cross_identity_fails {α : Type} (P : CryptoPrim α) (env : Option String)
    (ms : List Nat) (data : α) (i1 i2 : String) (ivB ct tag : List Nat)
    (hne : i1 ≠ i2)
    (hms : getMasterSecret env = .ok ms)
    (henc : P.gcmEnc (P.hkdf ms i1 keyDerivationInfo KEY_LENGTH) ivB (P.ser data) = (ct, tag))
    (hforge : P.gcmDec (P.hkdf ms i2 keyDerivationInfo KEY_LENGTH) ivB ct tag = none)
    (hct : ∀ b ∈ ct, b < 256) (hiv : ∀ b ∈ ivB, b < 256) (htag : ∀ b ∈ tag, b < 256) :
    (encrypt P env data i1 ivB).bind (fun r => decrypt P env r i2) =
      .error decryptFailureMsg := by
  simp only [encrypt, deriveUserKey, hms, henc, Except.bind, decrypt,
    b64_roundtrip ct hct, b64_roundtrip ivB hiv, b64_roundtrip tag htag, hforge]

/-- C2 witness at the trivial instance, whose KDF makes the two identities'
keys differ and whose tag check then fails. -/
theorem C2_witness :
    (encrypt idPrim (some "QUJD") 7 "a" [1, 2]).bind
      (fun r => decrypt idPrim (some "QUJD") r "b") = .error decryptFailureMsg :=
  C2_cross_identity_fails idPrim (some "QUJD") [65, 66, 67] 7 "a" "b" [1, 2] [7]
    [65, 66, 67, 97, 1, 2, 7] (by decide) (by decide) (by decide) (by decide)
    (by decide) (by decide) (by decide)

/-- C3: for a record produced by `encrypt`, flipping any single bit of the
ciphertext, of the IV, or of the authentication tag makes `decrypt` under the
same identity fail with the integrity error instead of returning plaintext.
The AEAD's rejection of each tampered triple is hypothesised pointwise
(`hd1`, `hd2`, `hd3`). -/
theorem C3_tamper_detected {α : Type} (P : CryptoPrim α) (env : Option String)
    (ms : List Nat) (data : α) (i : String) (ivB ct tag : List Nat) (n1 n2 n3 : Nat)
    (hms : getMasterSecret env = .ok ms)
    (henc : P.gcmEnc (P.hkdf ms i keyDerivationInfo KEY_LENGTH) ivB (P.ser data) = (ct, tag))
    (hct : ∀ b ∈ ct, b < 256) (hiv : ∀ b ∈ ivB, b < 256) (htag : ∀ b ∈ tag, b < 256)
    (hn1 : n1 < 8 * ct.length)
    (hd1 : P.gcmDec (P.hkdf ms i keyDerivationInfo KEY_LENGTH) ivB (flipBit ct n1) tag = none)
    (hn2 : n2 < 8 * ivB.length)
    (hd2 : P.gcmDec (P.hkdf ms i keyDerivationInfo KEY_LENGTH) (flipBit ivB n2) ct tag = none)
    (hn3 : n3 < 8 * tag.length)
    (hd3 : P.gcmDec (P.hkdf ms i keyDerivationInfo KEY_LENGTH) ivB ct (flipBit tag n3) = none) :
    decrypt P env ⟨b64encode (flipBit ct n1), b64encode ivB, b64encode tag⟩ i =
        .error decryptFailureMsg
    ∧ decrypt P env ⟨b64encode ct, b64encode (flipBit ivB n2), b64encode tag⟩ i =
        .error decryptFailureMsg
    ∧ decrypt P env ⟨b64encode ct, b64encode ivB, b64encode (flipBit tag n3)⟩ i =
        .error decryptFailureMsg := by
  refine ⟨?_, ?_, ?_⟩ <;>
    simp only [decrypt, deriveUserKey, hms,
      b64_roundtrip ct hct, b64_roundtrip ivB hiv, b64_roundtrip tag htag,
      b64_roundtrip (flipBit ct n1) (flipBit_valid n1 hct),
      b64_roundtrip (flipBit ivB n2) (flipBit_valid n2 hiv),
      b64_roundtrip (flipBit tag n3) (flipBit_valid n3 htag),
      hd1, hd2, hd3]

/-- C3 witness: flipping the lowest bit of each component of a concrete
record at the trivial instance. -/
theorem C3_witness :
    decrypt idPrim (some "QUJD") ⟨b64encode (flipBit [7] 0), b64encode [1, 2],
        b64encode [65, 66, 67, 97, 1, 2, 7]⟩ "a" = .error decryptFailureMsg
    ∧ decrypt idPrim (some "QUJD") ⟨b64encode [7], b64encode (flipBit [1, 2] 0),
        b64encode [65, 66, 67, 97, 1, 2, 7]⟩ "a" = .error decryptFailureMsg
    ∧ decrypt idPrim (some "QUJD") ⟨b64encode [7], b64encode [1, 2],
        b64encode (flipBit [65, 66, 67, 97, 1, 2, 7] 0)⟩ "a" = .error decryptFailureMsg :=
  C3_tamper_detected idPrim (some "QUJD") [65, 66, 67] 7 "a" [1, 2] [7]
    [65, 66, 67, 97, 1, 2, 7] 0 0 0 (by decide) (by decide) (by decide) (by decide)
    (by decide) (by decide) (by decide) (by decide) (by decide) (by decide) (by decide)

end Tenants

namespace Tenants

/-- C9 counterexample: at a concrete input whose authentication tag verifies
but whose decrypted bytes fail deserialization, `decrypt` fails with exactly
the same error it raises on a tag-verification failure — the code has no
distinct `DecodingError` kind. The last two conjuncts exhibit that the tag of
the first record does verify and that deserialization of its plaintext bytes
fails. -/
theorem C9_counterexample :
    decrypt idPrim (some "QUJD")
        ⟨b64encode [1, 2], b64encode [9], b64encode [65, 66, 67, 117, 9, 1, 2]⟩ "u" =
      .error decryptFailureMsg
    ∧ decrypt idPrim (some "QUJD")
        ⟨b64encode [1, 2], b64encode [9], b64encode [0]⟩ "u" =
      .error decryptFailureMsg
    ∧ idPrim.gcmDec [65, 66, 67, 117] [9] [1, 2] [65, 66, 67, 117, 9, 1, 2] = some [1, 2]
    ∧ idPrim.deser [1, 2] = none := by decide

/-- C9 amended: when tag verification succeeds but deserialization of the
decrypted bytes fails, `decrypt` fails — but with the same single error
(`'Decryption failed or data integrity compromised'`) that a tag-verification
failure raises, since one catch-all covers both; no distinct `DecodingError`
kind exists. -/
theorem C9_deser_failure_same_error {α : Type} (P : CryptoPrim α) (env : Option String)
    (ms : List Nat) (i : String) (ivB ct tag pt : List Nat)
    (hms : getMasterSecret env = .ok ms)
    (hauth : P.gcmDec (P.hkdf ms i keyDerivationInfo KEY_LENGTH) ivB ct tag = some pt)
    (hdeser : P.deser pt = none)
    (hct : ∀ b ∈ ct, b < 256) (hiv : ∀ b ∈ ivB, b < 256) (htag : ∀ b ∈ tag, b < 256) :
    decrypt P env ⟨b64encode ct, b64encode ivB, b64encode tag⟩ i =
      .error decryptFailureMsg := by
  simp only [decrypt, deriveUserKey, hms,
    b64_roundtrip ct hct, b64_roundtrip ivB hiv, b64_roundtrip tag htag, hauth, hdeser]

/-- C9 witness for the amended statement. -/
theorem C9_witness :
    decrypt idPrim (some "QUJD")
        ⟨b64encode [1, 2], b64encode [9], b64encode [65, 66, 67, 117, 9, 1, 2]⟩ "u" =
      .error decryptFailureMsg :=
  C9_deser_failure_same_error idPrim (some "QUJD") [65, 66, 67] "u" [9] [1, 2]
    [65, 66, 67, 117, 9, 1, 2] [1, 2] (by decide) (by decide) (by decide) (by decide)
    (by decide) (by decide)

/-- C7 counterexample: a present master secret that is well-formed base64 but
decodes to a single byte — far below the required 256 bits, i.e. malformed by
length — is not rejected: `deriveUserKey` succeeds instead of failing with a
configuration error. -/
theorem C7_counterexample :
    (b64decode "AA==").length = 1
    ∧ deriveUserKey idPrim (some "AA==") "user-42" =
        .ok [0, 117, 115, 101, 114, 45, 52, 50] := by decide

/-- C7 amended: for every identity, `deriveUserKey` fails — with the
configuration error `'ENCRYPTION_MASTER_SECRET environment variable is not
set'` — exactly when the master secret is absent or the empty string; any
other present value is accepted without validation (base64 decoding is
lenient and no length check exists), and derivation proceeds. -/
theorem C7_missing_secret_only {α : Type} (P : CryptoPrim α) (i : String) :
    deriveUserKey P none i = .error masterSecretMissingMsg
    ∧ deriveUserKey P (some "") i = .error masterSecretMissingMsg
    ∧ ∀ s : String, s ≠ "" →
        deriveUserKey P (some s) i =
          .ok (P.hkdf (b64decode s) i keyDerivationInfo KEY_LENGTH) := by
  refine ⟨rfl, by simp [deriveUserKey, getMasterSecret], ?_⟩
  intro s hs
  simp [deriveUserKey, getMasterSecret, hs]

/-- C7 witness for the amended statement. -/
theorem C7_witness :
    deriveUserKey idPrim none "user-42" = .error masterSecretMissingMsg
    ∧ deriveUserKey idPrim (some "") "user-42" = .error masterSecretMissingMsg
    ∧ deriveUserKey idPrim (some "AA==") "user-42" =
        .ok (idPrim.hkdf (b64decode "AA==") "user-42" keyDerivationInfo KEY_LENGTH) :=
  ⟨(C7_missing_secret_only idPrim "user-42").1,
   (C7_missing_secret_only idPrim "user-42").2.1,
   (C7_missing_secret_only idPrim "user-42").2.2 "AA==" (by decide)⟩

end Tenants

namespace Tenants

/-- C4: a handler wrapped by `withAuth` runs only after `verifyAuth` returns
a verified caller. Whenever verification fails, the response is the one
`withAuth` builds from the authentication error, and — formalizing that the
handler is never invoked, hence no cipher call on encrypted fields happens —
the outcome is identical for every handler. -/
theorem C4_no_handler_without_verification (vit : TokenVerifier) (request : Req)
    (e : AuthenticationError) (h : verifyAuth vit request = .error e)
    (handler handler2 : Handler) :
    withAuth vit handler request = mkJsonResponse e.message e.statusCode
    ∧ withAuth vit handler request = withAuth vit handler2 request := by
  simp [withAuth, h]

/-- C4 witness: a request with no credential, under two handlers that behave
differently (one returns 200, one throws). -/
theorem C4_witness :
    withAuth vitAccept okHandler ⟨none⟩ =
      mkJsonResponse "Missing authorization header" 401
    ∧ withAuth vitAccept okHandler ⟨none⟩ = withAuth vitAccept throwingHandler ⟨none⟩ :=
  C4_no_handler_without_verification vitAccept ⟨none⟩
    ⟨"Missing authorization header", 401⟩ (by decide) okHandler throwingHandler

/-- C6: the four AuthGate outcomes. A request with no Authorization header is
rejected 401; the header `"Bearer "` (empty token) is rejected 401; a
syntactically valid header whose token the provider rejects (expired,
revoked, malformed — any oracle error) is rejected 401; a valid token yields
the verified caller whose `uid` is the token's subject id. The syntactic
shape of a header is captured by its JavaScript `split(' ')` image. -/
theorem C6_authgate_outcomes (vit : TokenVerifier) :
    (∀ request : Req, request.authorization = none →
      verifyAuth vit request = .error ⟨"Missing authorization header", 401⟩)
    ∧ verifyAuth vit ⟨some "Bearer "⟩ =
        .error ⟨"Invalid authorization header format", 401⟩
    ∧ (∀ (h t : String) (rest : List String) (e : VerifierError),
        jsSplitSpace h = "Bearer" :: t :: rest → t ≠ "" → vit t = .error e →
        verifyAuth vit ⟨some h⟩ = .error ⟨"Invalid or expired token", 401⟩)
    ∧ (∀ (h t : String) (rest : List String) (tok : DecodedIdToken),
        jsSplitSpace h = "Bearer" :: t :: rest → t ≠ "" → vit t = .ok tok →
        verifyAuth vit ⟨some h⟩ =
          .ok ⟨tok.uid, tok.email, tok.email_verified.getD false, tok⟩) := by
  refine ⟨?_, ?_, ?_, ?_⟩
  · intro request hreq
    cases request
    simp_all [verifyAuth]
  · have hsplit : jsSplitSpace "Bearer " = ["Bearer", ""] := by decide
    simp [verifyAuth, hsplit]
  · intro h t rest e hsplit ht hv
    simp [verifyAuth, hsplit, ht, hv]
  · intro h t rest tok hsplit ht hv
    simp [verifyAuth, hsplit, ht, hv]

/-- C6 witness: the four outcomes at concrete requests, under an oracle that
rejects token "bad" as expired and accepts token "good" with subject
"uid-good". -/
theorem C6_witness :
    verifyAuth vitExpired ⟨none⟩ = .error ⟨"Missing authorization header", 401⟩
    ∧ verifyAuth vitExpired ⟨some "Bearer "⟩ =
        .error ⟨"Invalid authorization header format", 401⟩
    ∧ verifyAuth vitExpired ⟨some "Bearer bad"⟩ =
        .error ⟨"Invalid or expired token", 401⟩
    ∧ verifyAuth vitAccept ⟨some "Bearer good"⟩ =
        .ok ⟨"uid-good", none, false, ⟨"uid-good", none, none⟩⟩ :=
  ⟨(C6_authgate_outcomes vitExpired).1 ⟨none⟩ rfl,
   (C6_authgate_outcomes vitExpired).2.1,
   (C6_authgate_outcomes vitExpired).2.2.1 "Bearer bad" "bad" [] .expiredToken
     (by decide) (by decide) (by decide),
   (C6_authgate_outcomes vitAccept).2.2.2 "Bearer good" "good" [] ⟨"uid-good", none, none⟩
     (by decide) (by decide) (by decide)⟩

/-- C10: for a header splitting into `"Bearer" :: t :: rest` with extra
segments after the token, only the first segment `t` is verified: the result
does not depend on the remaining segments at all (first conjunct, for every
pair of headers agreeing on `t`). A header with two consecutive spaces after
`Bearer` has an empty first segment and is rejected 401 (second conjunct). -/
theorem C10_first_segment_only (vit : TokenVerifier) :
    (∀ (h1 h2 t : String) (rest1 rest2 : List String),
      jsSplitSpace h1 = "Bearer" :: t :: rest1 →
      jsSplitSpace h2 = "Bearer" :: t :: rest2 →
      verifyAuth vit ⟨some h1⟩ = verifyAuth vit ⟨some h2⟩)
    ∧ (∀ (h : String) (rest : List String),
      jsSplitSpace h = "Bearer" :: "" :: rest →
      verifyAuth vit ⟨some h⟩ = .error ⟨"Invalid authorization header format", 401⟩) := by
  constructor
  · intro h1 h2 t rest1 rest2 hs1 hs2
    simp only [verifyAuth, hs1, hs2]
  · intro h rest hs
    simp [verifyAuth, hs]

/-- C10 witness: `"Bearer a b"` verifies exactly as `"Bearer a"` does
(the trailing segment is ignored), and `"Bearer  x"` is rejected 401. -/
theorem C10_witness :
    verifyAuth vitAccept ⟨some "Bearer a b"⟩ = verifyAuth vitAccept ⟨some "Bearer a"⟩
    ∧ verifyAuth vitAccept ⟨some "Bearer  x"⟩ =
        .error ⟨"Invalid authorization header format", 401⟩ :=
  ⟨(C10_first_segment_only vitAccept).1 "Bearer a b" "Bearer a" "a" ["b"] []
     (by decide) (by decide),
   (C10_first_segment_only vitAccept).2 "Bearer  x" ["x"] (by decide)⟩

/-- C8 counterexample: an exception outside the two expected failure classes
raised during gate processing — here the provider call failing with an
unexpected, non-verification exception — is reported as a 401 rejection with
`'Invalid or expired token'`, not as a generic 500: `verifyAuth`'s catch-all
converts every exception it sees into a 401 `AuthenticationError`. -/
theorem C8_counterexample :
    withAuth vitUnexpected okHandler ⟨some "Bearer sometoken"⟩ =
      mkJsonResponse "Invalid or expired token" 401
    ∧ (withAuth vitUnexpected okHandler ⟨some "Bearer sometoken"⟩).status = 401 := by
  decide

/-- C8 amended: an exception outside the expected classes raised inside the
gate (`verifyAuth`) is mapped to a 401 rejection, for every handler; the
generic 500 `'Authentication failed'` response arises exactly when, after
successful verification, the wrapped handler throws a
non-`AuthenticationError` exception. -/
theorem C8_unexpected_exception_handling (vit : TokenVerifier) :
    (∀ (h t : String) (rest : List String),
      jsSplitSpace h = "Bearer" :: t :: rest → t ≠ "" →
      vit t = .error .unexpectedFailure → ∀ handler : Handler,
      withAuth vit handler ⟨some h⟩ = mkJsonResponse "Invalid or expired token" 401)
    ∧ (∀ (request : Req) (user : AuthenticatedUser) (handler : Handler),
      verifyAuth vit request = .ok user → handler request user = .error .otherExn →
      withAuth vit handler request = mkJsonResponse "Authentication failed" 500) := by
  constructor
  · intro h t rest hs ht hv handler
    simp [withAuth, verifyAuth, hs, ht, hv]
  · intro request user handler hver hhandler
    simp [withAuth, hver, hhandler]

/-- C8 witness for the amended statement. -/
theorem C8_witness :
    withAuth vitUnexpected okHandler ⟨some "Bearer tok"⟩ =
      mkJsonResponse "Invalid or expired token" 401
    ∧ withAuth vitAccept throwingHandler ⟨some "Bearer tok"⟩ =
        mkJsonResponse "Authentication failed" 500 :=
  ⟨(C8_unexpected_exception_handling vitUnexpected).1 "Bearer tok" "tok" []
     (by decide) (by decide) (by decide) okHandler,
   (C8_unexpected_exception_handling vitAccept).2 ⟨some "Bearer tok"⟩
     ⟨"uid-tok", none, false, ⟨"uid-tok", none, none⟩⟩ throwingHandler
     (by decide) (by decide)⟩

end Tenants
